import Mathlib

/-!
Verification development for the FGCasterOverlay control server
(`controller.py`).  The Python source is shallowly embedded: JSON values
become an inductive type, the persisted document becomes a finite map
(modelled as a function from keys to optional values), route handlers and
helpers become pure Lean functions that mirror the source line by line,
and the single-flight scraper job becomes explicit state passing over a
record of the process-wide mutable state it touches.
-/

namespace FGCaster

mutual

/-- JSON-ish values as they occur in the scoreboard document.  `vnull`
models Python `None` (both JSON `null` and the default of `dict.get`);
numbers are restricted to integers, which is all the data model uses. -/
inductive JVal where
  | vnull : JVal
  | vbool (b : Bool) : JVal
  | vint (n : Int) : JVal
  | vstr (s : String) : JVal
  | vdict (entries : JEntries) : JVal
  deriving DecidableEq, Repr

/-- Entry list of a JSON object (keys are unique in Python dicts; lookups
below use first-match, which agrees with dict semantics). -/
inductive JEntries where
  | nil : JEntries
  | cons (k : String) (v : JVal) (rest : JEntries) : JEntries
  deriving DecidableEq, Repr

end

open JVal JEntries

/-- Lookup of a key in an object's entry list (Python `d[k]` / `d.get(k)`). -/
def entryLookup : JEntries → String → Option JVal
  | .nil, _ => none
  | .cons k v rest, key => if k = key then some v else entryLookup rest key

/-- Python `d.get(key)` on a section dict: absent keys yield `None`. -/
def dictGet (entries : JEntries) (k : String) : JVal :=
  match entryLookup entries k with
  | some v => v
  | none => .vnull

/-- The persisted document (`data.json` contents): a mapping from string
keys to values; `none` means the key is absent. -/
def Doc : Type := String → Option JVal

/-- The empty document `{}`. -/
def Doc.empty : Doc := fun _ => none

/-- Python `d[k] = v`. -/
def Doc.set (d : Doc) (k : String) (v : JVal) : Doc :=
  fun q => if q = k then some v else d q

/-- Python `d.pop(k, None)`: the document with key `k` removed. -/
def Doc.erase (d : Doc) (k : String) : Doc :=
  fun q => if q = k then none else d q

/-- Build a document from an explicit entry list. -/
def Doc.ofEntries (l : JEntries) : Doc :=
  fun q => entryLookup l q

/-- Python `d.get(k, default)` on the top-level document. -/
def Doc.getD (d : Doc) (k : String) (v : JVal) : JVal :=
  match d k with
  | some w => w
  | none => v

/-- Python `k in d` on the top-level document. -/
def Doc.hasKey (d : Doc) (k : String) : Bool :=
  (d k).isSome

/-! ### String helpers shared by the log formatter and line classifier

Python string primitives are modelled over `List Char` (a Lean `String`
is a packed `List Char`, and Python indexes/slices by code point, so the
two agree).  `Char.isWhitespace`/`Char.toLower` stand in for Python's
`str.isspace`/`str.lower`; they agree on the ASCII data these functions
are applied to. -/

/-- Test that `l` starts with the pattern `p` (`str.startswith`). -/
def listStartsWith : List Char → List Char → Bool
  | _, [] => true
  | [], _ :: _ => false
  | c :: cs, p :: ps => c == p && listStartsWith cs ps

/-- Case-insensitive prefix test against a lowercase pattern. -/
def ciStartsWith (l pat : List Char) : Bool :=
  listStartsWith (l.map Char.toLower) pat

/-- Python `s.lower()`. -/
def pyLower (s : String) : String :=
  String.mk (s.data.map Char.toLower)

/-- Python `s.lstrip()`. -/
def pyLStrip (s : String) : String :=
  String.mk (s.data.dropWhile Char.isWhitespace)

/-- Python `s.strip()`. -/
def pyStrip (s : String) : String :=
  String.mk (((s.data.dropWhile Char.isWhitespace).reverse.dropWhile
    Char.isWhitespace).reverse)

/-! ### The change auditor (`_short`, `_fmt_change`, `_diff_*`)

`_short` renders a value for the human-readable diff log.  The branches
follow the source: `None`/empty-string placeholder, numbers verbatim,
data-URL payloads as a short descriptor, `blob:` URLs, path basenames,
and a 40-character truncation fallback. -/

/-- The placeholder shown for `None` / empty values. -/
def noneDisp : String := "[bright_black]None[/bright_black]"

/-- Character class `[-\w.+/]` of `DATA_URL_RE` (ASCII `\w` approximation
of the re module's Unicode word class). -/
def wordChar (c : Char) : Bool :=
  c.isAlphanum || c == '_' || c == '-' || c == '.' || c == '+' || c == '/'

/-- Characters allowed inside the `name=`/`charset=` captures.  The regex
class is `[^;]+` with backtracking up to the final `,`; this parser stops
a capture at either separator, which differs from the regex only for
captures that themselves contain a comma. -/
def captChar (c : Char) : Bool :=
  c != ';' && c != ','

/-- Optional `(;name=[^;]+)?` group of `DATA_URL_RE`: returns the
captured name (if the group matched) and the rest of the input. -/
def parseNameGroup (r : List Char) : Option (Option (List Char) × List Char) :=
  if ciStartsWith r ";name=".data then
    let chunk := (r.drop 6).takeWhile captChar
    if chunk = [] then none
    else some (some chunk, (r.drop 6).dropWhile captChar)
  else some (none, r)

/-- Optional `(;charset=[^;]+)?` group of `DATA_URL_RE`. -/
def parseCharsetGroup (r : List Char) : Option (List Char) :=
  if ciStartsWith r ";charset=".data then
    let chunk := (r.drop 9).takeWhile captChar
    if chunk = [] then none
    else some ((r.drop 9).dropWhile captChar)
  else some r

/-- Model of `DATA_URL_RE.match(s)`: on success returns the `name` capture (if
any) and the `mime` capture. -/
def dataUrlParse (l : List Char) : Option (Option (List Char) × List Char) :=
  if ciStartsWith l "data:".data then
    let r0 := l.drop 5
    let mime := r0.takeWhile wordChar
    if mime = [] then none
    else
      let r1 := r0.dropWhile wordChar
      match parseNameGroup r1 with
      | none => none
      | some (nm, r2) =>
        match parseCharsetGroup r2 with
        | none => none
        | some r3 =>
          let r4 := if ciStartsWith r3 ";base64".data then r3.drop 7 else r3
          match r4 with
          | ',' :: _ => some (nm, mime)
          | _ => none
  else none

/-- The mime→extension table of `_short`, including the
`mime or '?'` fallback. -/
def extForMime (m : String) : String :=
  if m = "image/png" then "png"
  else if m = "image/jpeg" then "jpg"
  else if m = "image/svg+xml" then "svg"
  else if m = "image/webp" then "webp"
  else if m = "image/gif" then "gif"
  else if m = "" then "?" else m

/-- Display for a matched data URL: explicit filename if provided, else
`Custom image (<ext>)`. -/
def dataUrlDisplay : Option (List Char) × List Char → String
  | (some nm, _) => String.mk nm
  | (none, mime) => "Custom image (" ++ extForMime (String.mk (mime.map Char.toLower)) ++ ")"

/-- Python `s.rstrip('/\\')`. -/
def rstripSeps (l : List Char) : List Char :=
  (l.reverse.dropWhile (fun c => c == '/' || c == '\\')).reverse

/-- Final path component after the last `/` or `\\` (`ntpath.basename`,
matching the source's check for both separators). -/
def afterLastSep (l : List Char) : List Char :=
  (l.reverse.takeWhile (fun c => !(c == '/' || c == '\\'))).reverse

mutual

/-- Python `repr` of a value as used by `str(dict)` (string escaping
corner cases are not modelled). -/
def pyReprVal : JVal → String
  | .vnull => "None"
  | .vbool b => if b then "True" else "False"
  | .vint n => toString n
  | .vstr s => "'" ++ s ++ "'"
  | .vdict es => "\x7b" ++ pyReprEntries es ++ "\x7d"

/-- Comma-joined `repr` entries of a dict. -/
def pyReprEntries : JEntries → String
  | .nil => ""
  | .cons k v .nil => "'" ++ k ++ "': " ++ pyReprVal v
  | .cons k v (.cons k2 v2 rest) =>
      "'" ++ k ++ "': " ++ pyReprVal v ++ ", " ++ pyReprEntries (.cons k2 v2 rest)

end

/-- String normalization applied by `_short` after `s = str(v)`. -/
def shortStr (s : String) : String :=
  match dataUrlParse s.data with
  | some m => dataUrlDisplay m
  | none =>
    if listStartsWith s.data "blob:".data then "Custom image (blob)"
    else if s.data.contains '/' || s.data.contains '\\' then
      let base := afterLastSep (rstripSeps s.data)
      if base = [] then s else String.mk base
    else if s.length ≤ 40 then s
    else String.mk (s.data.take 37) ++ "…"

/-- Model of `_short(v)`: log-friendly rendering of a value.  The source returns
ints/bools unchanged and lets the caller's f-string render them; that
rendering (`str`) is applied here so the result is uniformly a string.
(Python `bool` passes the `isinstance(v, (int, float))` test.) -/
def _short (v : JVal) : String :=
  match v with
  | .vnull => noneDisp
  | .vbool b => if b then "True" else "False"
  | .vint n => toString n
  | .vstr s => if s = "" then noneDisp else shortStr s
  | .vdict es => shortStr (pyReprVal (.vdict es))

/-- Model of `_fmt_change(label, old, new)`: empty when the value is unchanged,
otherwise the rendered `old → new` line. -/
def _fmt_change (label : String) (old new : JVal) : String :=
  if old = new then ""
  else label ++ " [b]" ++ _short old ++ "[/b] → [bold]" ++ _short new ++ "[/bold]"

/-- Coercion at the top of `_diff_section`: a non-dict section value is
replaced by `{}`. -/
def asEntries : JVal → JEntries
  | .vdict es => es
  | _ => .nil

/-- Model of `_diff_section(title, prev, curr, fields)`: one formatted
line if any listed field changed, else the empty string.  The source's
append-only-nonempty loop is the map-and-filter below. -/
def _diff_section (title : String) (prev curr : JVal)
    (fields : List (String × String)) : String :=
  match (fields.map
    (fun kl => _fmt_change (kl.2 ++ ":") (dictGet (asEntries prev) kl.1)
      (dictGet (asEntries curr) kl.1))).filter (fun x => x ≠ "") with
  | [] => ""
  | parts => "[yellow]" ++ title ++ "[/yellow] " ++ String.intercalate ", " parts

/-- Model of `_diff_scalar(label, prev, curr)`. -/
def _diff_scalar (label : String) (prev curr : JVal) : String :=
  _fmt_change (label ++ ":") prev curr

/-- Field tables of `_diff_payload`. -/
def playerFields : List (String × String) :=
  [("name", "Name"), ("id", "ID"), ("clan", "Clan Tag"), ("wl", "W/L"),
   ("score", "Score"), ("character", "Character"), ("img", "Img")]

/-- Team section fields. -/
def teamFields : List (String × String) :=
  [("name", "Name"), ("score", "Score"), ("img", "Img")]

/-- Caster section fields. -/
def casterFields : List (String × String) :=
  [("name", "Name"), ("twitch", "Twitch"), ("twitter", "Twitter")]

/-- Python `prev.get(key)` / `prev.get(key, {})` on the top-level payload
(the `{}` default and a non-dict value are both normalized away inside
`_diff_section`, so a single `None`-defaulting accessor suffices). -/
def topGet (d : Doc) (k : String) : JVal :=
  Doc.getD d k .vnull

/-- The logical sections of `_diff_payload`, in source order. -/
inductive DiffSection where
  | player1 | player2 | team1 | team2
  | stage | matchType | toptext
  | caster1 | caster2
  | uiScale | activeTemplate
  deriving DecidableEq, Repr

/-- The per-section line of `_diff_payload`, exactly as the source
computes it. -/
def sectionLine (prev curr : Doc) : DiffSection → String
  | .player1 => _diff_section "Player 1" (topGet prev "player1") (topGet curr "player1") playerFields
  | .player2 => _diff_section "Player 2" (topGet prev "player2") (topGet curr "player2") playerFields
  | .team1 => _diff_section "Team 1" (topGet prev "team1") (topGet curr "team1") teamFields
  | .team2 => _diff_section "Team 2" (topGet prev "team2") (topGet curr "team2") teamFields
  | .stage => _diff_scalar "Event Stage" (topGet prev "stage") (topGet curr "stage")
  | .matchType => _diff_scalar "Match Type" (topGet prev "match_type") (topGet curr "match_type")
  | .toptext => _diff_scalar "Top Text" (topGet prev "toptext") (topGet curr "toptext")
  | .caster1 => _diff_section "Caster 1" (topGet prev "caster1") (topGet curr "caster1") casterFields
  | .caster2 => _diff_section "Caster 2" (topGet prev "caster2") (topGet curr "caster2") casterFields
  | .uiScale => _diff_scalar "UI scale" (topGet prev "ui_scale") (topGet curr "ui_scale")
  | .activeTemplate => _diff_scalar "Active template" (topGet prev "active_template") (topGet curr "active_template")

/-- Section order in the output. -/
def sectionsOrder : List DiffSection :=
  [.player1, .player2, .team1, .team2, .stage, .matchType, .toptext,
   .caster1, .caster2, .uiScale, .activeTemplate]

/-- Model of `_diff_payload(prev, curr)`: the non-empty section lines joined by
`" • "`.  The source appends scalar lines conditionally and then filters
empty lines once more; both appends are subsumed by the single filter. -/
def _diff_payload (prev curr : Doc) : String :=
  String.intercalate " • "
    (((sectionsOrder.map (sectionLine prev curr))).filter (fun l => l ≠ ""))

/-- The diff output "mentions" a section: that section's line is
non-empty (and hence included in the joined output). -/
def sectionMentioned (prev curr : Doc) (s : DiffSection) : Bool :=
  sectionLine prev curr s != ""

/-- Spec-side predicate: some tracked field of the section differs
between the two documents (scalar sections track the single value). -/
def sectionDiffers (prev curr : Doc) : DiffSection → Bool
  | .player1 => playerFields.any (fun kl =>
      decide (dictGet (asEntries (topGet prev "player1")) kl.1 ≠ dictGet (asEntries (topGet curr "player1")) kl.1))
  | .player2 => playerFields.any (fun kl =>
      decide (dictGet (asEntries (topGet prev "player2")) kl.1 ≠ dictGet (asEntries (topGet curr "player2")) kl.1))
  | .team1 => teamFields.any (fun kl =>
      decide (dictGet (asEntries (topGet prev "team1")) kl.1 ≠ dictGet (asEntries (topGet curr "team1")) kl.1))
  | .team2 => teamFields.any (fun kl =>
      decide (dictGet (asEntries (topGet prev "team2")) kl.1 ≠ dictGet (asEntries (topGet curr "team2")) kl.1))
  | .stage => decide (topGet prev "stage" ≠ topGet curr "stage")
  | .matchType => decide (topGet prev "match_type" ≠ topGet curr "match_type")
  | .toptext => decide (topGet prev "toptext" ≠ topGet curr "toptext")
  | .caster1 => casterFields.any (fun kl =>
      decide (dictGet (asEntries (topGet prev "caster1")) kl.1 ≠ dictGet (asEntries (topGet curr "caster1")) kl.1))
  | .caster2 => casterFields.any (fun kl =>
      decide (dictGet (asEntries (topGet prev "caster2")) kl.1 ≠ dictGet (asEntries (topGet curr "caster2")) kl.1))
  | .uiScale => decide (topGet prev "ui_scale" ≠ topGet curr "ui_scale")
  | .activeTemplate => decide (topGet prev "active_template" ≠ topGet curr "active_template")

/-! ### StateStore and the update/reset routes

`save_data`/`load_data` serialize through `DATA_LOCK`; route handlers
here are sequential, so the document `load_data` returns inside
`save_data_preserving` is the same `current` the route saw.  The routes
mutate the client payload dict in place (`sanitize_incoming` pops a key,
`save_data_preserving` writes the preserved keys into it) and then both
persist and broadcast that same object; the model therefore computes one
document and records it as both the persisted and the emitted payload. -/

/-- The `PRESERVE_KEYS` tuple of the source. -/
def PRESERVE_KEYS : List String := ["port", "active_template"]

/-- Model of `save_data_preserving(update)`: every preserved key present in the
current document is hard-overridden in `update` before saving; the
result is the document handed to `save_data`. -/
def save_data_preserving (current update : Doc) : Doc :=
  PRESERVE_KEYS.foldl
    (fun u k =>
      match current k with
      | some v => Doc.set u k v
      | none => u)
    update

/-- Model of `sanitize_incoming(update)`: drop any client attempt to set
`active_template` (`update.pop("active_template", None)`). -/
def sanitize_incoming (update : Doc) : Doc :=
  Doc.erase update "active_template"

/-- Outcome of a route that saves and broadcasts the scoreboard: the
document written to `data.json`, the payload of the
`update_scoreboard` event, and the logged diff line. -/
structure EmitResult where
  persisted : Doc
  emitted : Doc
  diffLog : String

/-- The `/emit` route: sanitize the payload, persist it preserving the
config keys, broadcast the (in-place mutated) payload, and diff it
against the previous document. -/
def emit_data (current update : Doc) : EmitResult :=
  let sanitized := sanitize_incoming update
  let saved := save_data_preserving current sanitized
  { persisted := saved, emitted := saved, diffLog := _diff_payload current saved }

/-- The cleared player sub-document written by `/reset/players`. -/
def clearedPlayer : JVal :=
  .vdict (.cons "name" (.vstr "") (.cons "id" (.vstr "") (.cons "clan" (.vstr "")
    (.cons "wl" (.vstr "") (.cons "score" (.vint 0) (.cons "character" (.vstr "")
      (.cons "img" (.vstr "") .nil)))))))

/-- The cleared team sub-document written by `/reset/teams`. -/
def clearedTeam : JVal :=
  .vdict (.cons "name" (.vstr "") (.cons "score" (.vint 0)
    (.cons "img" (.vstr "") .nil)))

/-- The cleared caster sub-document of `/reset/all`. -/
def clearedCaster : JVal :=
  .vdict (.cons "name" (.vstr "") (.cons "twitch" (.vstr "")
    (.cons "twitter" (.vstr "") .nil)))

/-- The `/reset/players` route. -/
def reset_players (current : Doc) : EmitResult :=
  let cleared := (current.set "player1" clearedPlayer).set "player2" clearedPlayer
  let saved := save_data_preserving current cleared
  { persisted := saved, emitted := saved, diffLog := "" }

/-- The `/reset/teams` route. -/
def reset_teams (current : Doc) : EmitResult :=
  let cleared := (current.set "team1" clearedTeam).set "team2" clearedTeam
  let saved := save_data_preserving current cleared
  { persisted := saved, emitted := saved, diffLog := "" }

/-- The fresh scoreboard payload built by `/reset/all`. -/
def clearedAllBase : Doc :=
  ((((((((Doc.empty.set "player1" clearedPlayer).set "player2" clearedPlayer).set
    "team1" clearedTeam).set "team2" clearedTeam).set "stage" (.vstr "")).set
    "match_type" (.vstr "")).set "toptext" (.vstr "")).set "caster1" clearedCaster).set
    "caster2" clearedCaster

/-- The `/reset/all` route: fresh payload, carry over `ui_scale` and
`char_override` when present, persist preserving the config keys. -/
def reset_all (current : Doc) : EmitResult :=
  let cleared := ["ui_scale", "char_override"].foldl
    (fun d k =>
      match current k with
      | some v => Doc.set d k v
      | none => d)
    clearedAllBase
  let saved := save_data_preserving current cleared
  { persisted := saved, emitted := saved, diffLog := "" }

/-! ### Port configuration (`_validate_port`, `/config/port`) -/

/-- Python `int(value)` on a JSON value: ints pass through, bools coerce
to 0/1, strings parse as a decimal integer (leading/trailing whitespace
stripped, as `int()` does; exotic forms like underscores are not
modelled), everything else raises (`none`). -/
def pyInt : JVal → Option Int
  | .vint n => some n
  | .vbool b => some (if b then 1 else 0)
  | .vstr s => (pyStrip s).toInt?
  | _ => none

/-- Model of `_validate_port(value, default)`: the coerced value when it is an
integer in `1..65535`, otherwise the default. -/
def _validate_port (value : JVal) (default : Int) : Int :=
  match pyInt value with
  | some p => if 1 ≤ p ∧ p ≤ 65535 then p else default
  | none => default

/-- A port value the spec considers valid: coercible to an integer in
`1..65535`. -/
def isValidPortVal (value : JVal) : Bool :=
  match pyInt value with
  | some p => decide (1 ≤ p ∧ p ≤ 65535)
  | none => false

/-- The JSON body of the `/config/port` response. -/
structure PortResp where
  ok : Bool
  message : String
  port : Int
  deriving Repr

/-- The `/config/port` route: validate (with fallback 8008) the
submitted and current ports; persist only when they differ.  Returns the
resulting persisted document and the response body. -/
def set_port_config (current payload : Doc) : Doc × PortResp :=
  let newPort := _validate_port (payload.getD "port" (.vint 0)) 8008
  let oldPort := _validate_port (current.getD "port" (.vint 8008)) 8008
  if newPort = oldPort then
    (current, { ok := true, message := "Port unchanged", port := oldPort })
  else
    (current.set "port" (.vint newPort),
     { ok := true, message := "Port saved. Restart app to apply.", port := newPort })

/-! ### Template switching (`set_active_template`, `/set-template`)

The file system is abstracted by `dirs`, the set of names `name` for
which `os.path.isdir(os.path.join(TEMPLATES_ROOT, name))` holds. -/

/-- Python truthiness of a JSON value (`bool(v)` / `v or default`). -/
def pyTruthy : JVal → Bool
  | .vnull => false
  | .vbool b => b
  | .vint n => decide (n ≠ 0)
  | .vstr s => decide (s ≠ "")
  | .vdict es => decide (es ≠ .nil)

/-- Model of `set_active_template(name)`: raise `ValueError` when the template
folder does not exist, else persist the name in the document. -/
def set_active_template (dirs : List String) (current : Doc) (name : String) :
    Except String Doc :=
  if name ∈ dirs then .ok (current.set "active_template" (.vstr name))
  else .error ("Unknown template: " ++ name)

/-- The `/set-template` route: extract and strip the requested name,
delegate to `set_active_template` (whose exception propagates before any
write), then store the name and the optional `char_override` flag.
Returns the persisted document and the outcome; a non-string `template`
value makes `.strip()` raise before any state change. -/
def set_template (dirs : List String) (current payload : Doc) :
    Doc × Except String Unit :=
  let raw := payload.getD "template" .vnull
  let orEmpty := if pyTruthy raw then raw else .vstr ""
  match orEmpty with
  | .vstr s =>
    let name := pyStrip s
    match set_active_template dirs current name with
    | .error e => (current, .error e)
    | .ok d1 =>
      let d2 := d1.set "active_template" (.vstr name)
      let d3 :=
        if (payload "char_override").isSome then
          d2.set "char_override" (.vbool (pyTruthy (payload.getD "char_override" .vnull)))
        else d2
      (d3, .ok ())
  | _ => (current, .error "TypeError: strip on a non-string")

/-! ### Scraper output line classification

Both execution paths of `_run_char_scraper_for_slug` classify each
output line by a bracketed severity tag.  The frozen (in-process) path
recognizes `[error] [err] [warning] [warn] [info] [ok]`; the subprocess
path has its own copy of the table. -/

/-- Log severities used by the classifier. -/
inductive Level where
  | info | warn | error
  deriving DecidableEq, Repr

/-- Severity-tag table of the frozen execution path, in source order. -/
def frozenTags : List (String × Level) :=
  [("[error]", .error), ("[err]", .error), ("[warning]", .warn),
   ("[warn]", .warn), ("[info]", .info), ("[ok]", .info)]

/-- Severity-tag table of the subprocess execution path, in source
order (it lacks the `[ok]` entry). -/
def subprocTags : List (String × Level) :=
  [("[error]", .error), ("[err]", .error), ("[warning]", .warn),
   ("[warn]", .warn), ("[info]", .info)]

/-- Inner loop of the classifier: first matching tag wins; the message
drops the tag (sliced from the original-case line) and is left-stripped;
no match defaults to informational severity with the full line. -/
def classifyGo (line : String) (lower : List Char) :
    List (String × Level) → Level × String
  | [] => (.info, line)
  | (tag, lvl) :: rest =>
    if listStartsWith lower tag.data then
      (lvl, pyLStrip (String.mk (line.data.drop tag.data.length)))
    else classifyGo line lower rest

/-- Classification of one (already stripped, non-empty) line:
`lower = line.lower().lstrip()`, then the tag table scan. -/
def classifyWith (tags : List (String × Level)) (line : String) : Level × String :=
  classifyGo line (pyLStrip (pyLower line)).data tags

/-- Python `s.rstrip()` (no arguments: all trailing whitespace). -/
def rstripWS (l : List Char) : List Char :=
  (l.reverse.dropWhile Char.isWhitespace).reverse

/-- Python `s.rstrip("\n")`. -/
def rstripNL (l : List Char) : List Char :=
  (l.reverse.dropWhile (fun c => c == '\n')).reverse

/-- Line preprocessing of the frozen path: `raw.rstrip().strip()`. -/
def frozenLinePrep (raw : String) : String :=
  pyStrip (String.mk (rstripWS raw.data))

/-- Line preprocessing of the subprocess path:
`raw.rstrip("\n").strip()`. -/
def subprocLinePrep (raw : String) : String :=
  pyStrip (String.mk (rstripNL raw.data))

/-- One raw output line through the frozen path: `none` when the line is
skipped as empty, else its severity and logged message. -/
def frozenProcessLine (raw : String) : Option (Level × String) :=
  if frozenLinePrep raw = "" then none
  else some (classifyWith frozenTags (frozenLinePrep raw))

/-- One raw output line through the subprocess path. -/
def subprocProcessLine (raw : String) : Option (Level × String) :=
  if subprocLinePrep raw = "" then none
  else some (classifyWith subprocTags (subprocLinePrep raw))

/-! ### The single-flight scraper job (`_run_char_scraper_for_slug`)

The process-wide mutable state the function touches is made explicit:
the `SCRAPER_LOCK` guard, the `CHAR_SCRAPER_STATE` dict, the
`gamename.json` descriptor file, the characters directory, and the
emitted `charlist_status` notifications.  Task-body executions are
recorded in `runs` so runs can be counted.  The function is split at its
suspension point — everything up to and including the non-blocking guard
acquisition (`scraper_start`), the guarded try-block body
(`scraper_body`), and the `finally` block (`scraper_finish`) — so that a
second trigger arriving while the task is in flight can be expressed by
running `scraper_start` between the first call's phases.  Log lines
produced by classifying the task's own output are elided (they carry no
control-flow significance); the outcome-dependent log lines of the
wrapper itself are recorded in `logs`. -/

/-- Process-wide state touched by the scraper job. -/
structure ScraperState where
  lockHeld : Bool
  running : Bool
  slug : String
  startedAt : Nat
  gamename : Option String
  charsDirExists : Bool
  scriptExists : Bool
  runs : List String
  statusEvents : List (Bool × String)
  logs : List (Level × String)
  deriving DecidableEq, Repr

/-- Outcome of the task body: an exit code (the frozen path converts an
in-process exception into `rc = 1`), or a crash of the wrapper itself
caught by the outer `except`. -/
inductive TaskOutcome where
  | exit (rc : Int)
  | crash (msg : String)
  deriving DecidableEq, Repr

/-- Lines 146–190 of the source: entry checks, `mkdir` of the characters
directory, writing `gamename.json`, then the non-blocking
`SCRAPER_LOCK.acquire`; on contention the descriptor file is deleted and
the call returns.  On acquisition `CHAR_SCRAPER_STATE` is updated and a
`charlist_status {running: true}` notification attempted (`emitOk`;
failures are swallowed).  Returns the state and whether the guard was
acquired. -/
def scraper_start (s : ScraperState) (slug : String) (now : Nat)
    (emitOk : Bool) : ScraperState × Bool :=
  if slug = "" then
    ({ s with logs := s.logs ++ [(.warn, "No game slug provided; skipping scraper.")] }, false)
  else if !s.scriptExists then
    ({ s with logs := s.logs ++ [(.error, "Script not found")] }, false)
  else
    let s1 := { s with charsDirExists := true, gamename := some slug }
    if s1.lockHeld then ({ s1 with gamename := none }, false)
    else
      let s2 := { s1 with lockHeld := true, running := true, slug := slug, startedAt := now }
      let s3 :=
        if emitOk then { s2 with statusEvents := s2.statusEvents ++ [(true, slug)] }
        else s2
      (s3, true)

/-- The guarded try-block (lines 192–327): the task body is invoked
(recorded in `runs`), and the wrapper logs per the outcome: an error for
a crash or a non-zero exit code, a warning when a zero exit left no
output artifact (`artifact`). -/
def scraper_body (s : ScraperState) (slug : String) (outcome : TaskOutcome)
    (artifact : Bool) : ScraperState :=
  let s1 := { s with
    logs := s.logs ++ [(.info, "Downloading characters for '" ++ slug ++ "'")],
    runs := s.runs ++ [slug] }
  match outcome with
  | .crash m => { s1 with logs := s1.logs ++ [(.error, "Error while running scraper: " ++ m)] }
  | .exit rc =>
    if rc ≠ 0 then
      { s1 with logs := s1.logs ++ [(.error, "Scraper exited with code " ++ toString rc)] }
    else if !artifact then
      { s1 with logs := s1.logs ++ [(.warn, "Scraper finished but the output file was not created.")] }
    else s1

/-- The `finally` block (lines 328–349): clear `running`, attempt the
`charlist_status {running: false}` notification (failure swallowed),
delete `gamename.json` (`missing_ok`), release the guard. -/
def scraper_finish (s : ScraperState) (slug : String) (emitOk : Bool) : ScraperState :=
  let s1 := { s with running := false }
  let s2 :=
    if emitOk then { s1 with statusEvents := s1.statusEvents ++ [(false, slug)] }
    else s1
  let s3 := { s2 with gamename := none }
  { s3 with lockHeld := false }

/-- A complete, uninterleaved call of `_run_char_scraper_for_slug`. -/
def _run_char_scraper_for_slug (s : ScraperState) (slug : String) (now : Nat)
    (startEmitOk : Bool) (outcome : TaskOutcome) (artifact : Bool)
    (finishEmitOk : Bool) : ScraperState :=
  match scraper_start s slug now startEmitOk with
  | (s1, false) => s1
  | (s1, true) => scraper_finish (scraper_body s1 slug outcome artifact) slug finishEmitOk

/-! ### Subscriber connect (`on_connect`) and `load_data` -/

/-- Observable condition of `data.json` while a read runs: absent,
present but unreadable/invalid on every attempt, or readable with
parsed contents. -/
inductive DataFileState where
  | missing
  | unreadable
  | readable (d : Doc)

/-- Net result of `load_data()`: `{}` for a missing file; the bounded
retry loop over a file that stays unreadable falls back to `{}` with a
warning; otherwise the parsed document. -/
def load_data : DataFileState → Doc
  | .missing => Doc.empty
  | .unreadable => Doc.empty
  | .readable d => d

/-- Inferred subscriber roles. -/
inductive Role where
  | overlay | controller | unknown
  deriving DecidableEq, Repr

/-- The `connect` handler (lines 901–917): an overlay gets one push of
the contents of `data.json` — opened directly, not via `load_data()` —
and any exception (missing file, read error) is caught with a warning
and the push skipped; other roles get no push.  Returns the pushed
payloads in order. -/
def on_connect (fs : DataFileState) (role : Role) : List Doc :=
  match role, fs with
  | .overlay, .readable d => [d]
  | .overlay, _ => []
  | _, _ => []

/-! ### Example documents used by witnesses and counterexamples -/

/-- A current document holding `port = 9000`. -/
def exCurPort : Doc := Doc.ofEntries (.cons "port" (.vint 9000) .nil)

/-- A client update trying to set `port = 1234`. -/
def exUpdPort : Doc := Doc.ofEntries (.cons "port" (.vint 1234) .nil)

/-- A `/config/port` payload with an out-of-range port. -/
def exBadPortPayload : Doc := Doc.ofEntries (.cons "port" (.vint 70000) .nil)

/-- A `/set-template` payload naming a non-existent template. -/
def exTplPayload : Doc := Doc.ofEntries (.cons "template" (.vstr "nope") .nil)

/-- An idle scraper state (guard free, script present, nothing logged). -/
def exIdleScraper : ScraperState :=
  { lockHeld := false, running := false, slug := "", startedAt := 0,
    gamename := none, charsDirExists := false, scriptExists := true,
    runs := [], statusEvents := [], logs := [] }

/-! ## Theorems -/

theorem Doc.set_self (d : Doc) (k : String) (v : JVal) : d.set k v k = some v := by
  simp [Doc.set]

theorem Doc.set_other (d : Doc) (k q : String) (v : JVal) (h : q ≠ k) :
    d.set k v q = d q := by
  simp [Doc.set, h]

theorem Doc.erase_other (d : Doc) (k q : String) (h : q ≠ k) :
    d.erase k q = d q := by
  simp [Doc.erase, h]

theorem save_data_preserving_preserves (cur u : Doc) (k : String) (v : JVal)
    (hk : k ∈ PRESERVE_KEYS) (hv : cur k = some v) :
    save_data_preserving cur u k = some v := by
  have hk' : k = "port" ∨ k = "active_template" := by
    simpa [PRESERVE_KEYS] using hk
  unfold save_data_preserving PRESERVE_KEYS
  simp only [List.foldl]
  rcases hk' with h | h
  · subst h
    cases hat : cur "active_template" with
    | none =>
      simp only [hv, hat]
      exact Doc.set_self u "port" v
    | some w =>
      simp only [hv, hat]
      rw [Doc.set_other (u.set "port" v) "active_template" "port" w (by decide)]
      exact Doc.set_self u "port" v
  · subst h
    cases hp : cur "port" with
    | none =>
      simp only [hv, hp]
      exact Doc.set_self u "active_template" v
    | some w =>
      simp only [hv, hp]
      exact Doc.set_self (u.set "port" w) "active_template" v

/-- C1: every client-submitted update processed by `/emit` and by the
reset operations keeps the current persisted values of `port` and
`active_template` whenever the current document has them, regardless of
what the client supplied. -/
theorem config_keys_preserved_by_updates
    (current update : Doc) (k : String) (v : JVal)
    (hk : k ∈ PRESERVE_KEYS) (hv : current k = some v) :
    (emit_data current update).persisted k = some v ∧
    (reset_players current).persisted k = some v ∧
    (reset_teams current).persisted k = some v ∧
    (reset_all current).persisted k = some v := by
  refine ⟨?_, ?_, ?_, ?_⟩ <;>
    exact save_data_preserving_preserves _ _ _ _ hk hv

/-- Witness for C1: with current `port = 9000` and a client update
supplying `port = 1234`, the persisted result has `port = 9000`. -/
theorem config_keys_preserved_by_updates_witness :
    ("port" ∈ PRESERVE_KEYS) ∧ exCurPort "port" = some (.vint 9000) ∧
    (emit_data exCurPort exUpdPort).persisted "port" = some (.vint 9000) :=
  ⟨by decide, rfl,
    (config_keys_preserved_by_updates exCurPort exUpdPort "port" (.vint 9000)
      (by decide) rfl).1⟩

/-- C10: the payload broadcast in `update_scoreboard` by `/emit` and the
reset operations is the very document that was persisted (the preserved
keys are overwritten in the caller's object before both the save and the
emit), so subscribers see the prior document's `port` and
`active_template` values, not client-submitted ones. -/
theorem broadcast_equals_persisted (current update : Doc) :
    (emit_data current update).emitted = (emit_data current update).persisted ∧
    (reset_players current).emitted = (reset_players current).persisted ∧
    (reset_teams current).emitted = (reset_teams current).persisted ∧
    (reset_all current).emitted = (reset_all current).persisted ∧
    (∀ k, k ∈ PRESERVE_KEYS → ∀ v, current k = some v →
      (emit_data current update).emitted k = some v) := by
  refine ⟨rfl, rfl, rfl, rfl, ?_⟩
  intro k hk v hv
  exact save_data_preserving_preserves _ _ _ _ hk hv

/-- Witness for C10: the broadcast payload of a concrete `/emit` carries
the prior `port = 9000`, not the client's 1234. -/
theorem broadcast_equals_persisted_witness :
    ("port" ∈ PRESERVE_KEYS) ∧ exCurPort "port" = some (.vint 9000) ∧
    (emit_data exCurPort exUpdPort).emitted "port" = some (.vint 9000) :=
  ⟨by decide, rfl,
    (broadcast_equals_persisted exCurPort exUpdPort).2.2.2.2 "port" (by decide)
      _ rfl⟩

theorem validate_port_invalid (v : JVal) (d : Int)
    (h : isValidPortVal v = false) : _validate_port v d = d := by
  unfold isValidPortVal at h
  unfold _validate_port
  cases hp : pyInt v with
  | none => rfl
  | some p =>
    rw [hp] at h
    simp only [decide_eq_false_iff_not] at h
    show (if 1 ≤ p ∧ p ≤ 65535 then p else d) = d
    rw [if_neg h]

/-- C5 counterexample: submitting the invalid port 70000 while the
current document has `port = 9000` is not rejected — the route answers
`ok = true` with a success message, and the persisted port is silently
mutated to the fallback 8008. -/
theorem invalid_port_not_rejected_cex :
    isValidPortVal (exBadPortPayload.getD "port" (.vint 0)) = false ∧
    exCurPort "port" = some (.vint 9000) ∧
    (set_port_config exCurPort exBadPortPayload).2.ok = true ∧
    (set_port_config exCurPort exBadPortPayload).2.message =
      "Port saved. Restart app to apply." ∧
    (set_port_config exCurPort exBadPortPayload).1 "port" = some (.vint 8008) := by
  decide

/-- C5 amended: an invalid submitted port is coerced by `_validate_port`
to the default 8008 rather than rejected; the route reports success, and
afterwards the document's validated port is 8008 (the document is
overwritten when its current validated port differed, and left unchanged
otherwise). -/
theorem invalid_port_falls_back_to_default (current payload : Doc)
    (h : isValidPortVal (payload.getD "port" (.vint 0)) = false) :
    (set_port_config current payload).2.ok = true ∧
    _validate_port ((set_port_config current payload).1.getD "port" (.vint 8008))
      8008 = 8008 := by
  simp only [set_port_config]
  rw [validate_port_invalid _ _ h]
  split_ifs with hif
  · exact ⟨rfl, hif.symm⟩
  · refine ⟨rfl, ?_⟩
    have hg : (current.set "port" (.vint 8008)).getD "port" (.vint 8008) = .vint 8008 := by
      simp only [Doc.getD, Doc.set_self]
    rw [hg]
    decide

/-- Witness for C5's amended theorem at the concrete invalid port
70000. -/
theorem invalid_port_falls_back_to_default_witness :
    isValidPortVal (exBadPortPayload.getD "port" (.vint 0)) = false ∧
    ((set_port_config exCurPort exBadPortPayload).2.ok = true ∧
     _validate_port ((set_port_config exCurPort exBadPortPayload).1.getD "port"
       (.vint 8008)) 8008 = 8008) :=
  ⟨by decide, invalid_port_falls_back_to_default exCurPort exBadPortPayload (by decide)⟩

/-- C6: a template-switch request whose (stripped) requested name has no
existing template folder is rejected with the `Unknown template` error
before any write, and the persisted document is unchanged. -/
theorem unknown_template_rejected_unchanged
    (dirs : List String) (current payload : Doc) (s : String)
    (hs : (if pyTruthy (payload.getD "template" .vnull)
            then payload.getD "template" .vnull else .vstr "") = .vstr s)
    (hnot : pyStrip s ∉ dirs) :
    set_template dirs current payload =
      (current, .error ("Unknown template: " ++ pyStrip s)) ∧
    set_active_template dirs current (pyStrip s) =
      .error ("Unknown template: " ++ pyStrip s) := by
  have hsat : set_active_template dirs current (pyStrip s) =
      .error ("Unknown template: " ++ pyStrip s) := by
    unfold set_active_template
    rw [if_neg hnot]
  refine ⟨?_, hsat⟩
  simp only [set_template]
  rw [hs]
  simp only [hsat]

/-- Witness for C6 at a concrete request naming the absent template
`nope` while only `default` exists. -/
theorem unknown_template_rejected_unchanged_witness :
    ((if pyTruthy (exTplPayload.getD "template" .vnull)
        then exTplPayload.getD "template" .vnull else .vstr "") = .vstr "nope") ∧
    (pyStrip "nope" ∉ ["default"]) ∧
    set_template ["default"] Doc.empty exTplPayload =
      (Doc.empty, .error ("Unknown template: " ++ pyStrip "nope")) :=
  ⟨by decide, by decide,
    (unknown_template_rejected_unchanged ["default"] Doc.empty exTplPayload "nope"
      (by decide) (by decide)).1⟩

theorem scraper_start_contended (s : ScraperState) (slug : String) (now : Nat)
    (e : Bool) (hl : s.lockHeld = true) (hslug : slug ≠ "")
    (hscript : s.scriptExists = true) :
    scraper_start s slug now e =
      ({ s with charsDirExists := true, gamename := none }, false) := by
  simp [scraper_start, hslug, hscript, hl]

theorem scraper_start_acquires (s : ScraperState) (slug : String) (now : Nat)
    (e : Bool) (hl : s.lockHeld = false) (hslug : slug ≠ "")
    (hscript : s.scriptExists = true) :
    (scraper_start s slug now e).2 = true ∧
    (scraper_start s slug now e).1.lockHeld = true ∧
    (scraper_start s slug now e).1.scriptExists = true ∧
    (scraper_start s slug now e).1.runs = s.runs ∧
    (scraper_start s slug now e).1.gamename = some slug := by
  cases e <;> simp [scraper_start, hslug, hscript, hl]

theorem scraper_body_runs (s : ScraperState) (slug : String)
    (outcome : TaskOutcome) (artifact : Bool) :
    (scraper_body s slug outcome artifact).runs = s.runs ++ [slug] := by
  cases outcome with
  | crash m => simp [scraper_body]
  | exit rc =>
    simp only [scraper_body]
    split_ifs <;> rfl

theorem scraper_finish_fields (s : ScraperState) (slug : String) (e : Bool) :
    (scraper_finish s slug e).lockHeld = false ∧
    (scraper_finish s slug e).running = false ∧
    (scraper_finish s slug e).runs = s.runs ∧
    (e = true → (scraper_finish s slug e).statusEvents =
      s.statusEvents ++ [(false, slug)]) := by
  cases e <;> simp [scraper_finish]

/-- C3 counterexample: with the first `accept("k1")` in flight (guard
held, descriptor file `gamename.json` present), a second `accept("k1")`
is dropped, but it is not free of state change: it deletes the
descriptor file the first call wrote. -/
theorem second_accept_not_effect_free_cex :
    (scraper_start (scraper_start exIdleScraper "k1" 0 true).1 "k1" 1 true).2 = false ∧
    (scraper_start exIdleScraper "k1" 0 true).1.gamename = some "k1" ∧
    (scraper_start (scraper_start exIdleScraper "k1" 0 true).1 "k1" 1 true).1.gamename = none ∧
    (scraper_start (scraper_start exIdleScraper "k1" 0 true).1 "k1" 1 true).1 ≠
      (scraper_start exIdleScraper "k1" 0 true).1 := by
  decide

/-- C3 amended: from an idle state, `accept(slug)` then `accept(slug)`
before the first completes runs the task body exactly once; the second
call is dropped (not queued, not retried) and leaves the guard, job
state, run list, notifications and logs unchanged — its only effects
are rewriting and then deleting the `gamename.json` descriptor (leaving
it absent) and ensuring the characters directory exists. -/
theorem single_flight_second_accept_dropped
    (s0 : ScraperState) (slug : String) (now1 now2 : Nat) (e1 e2 : Bool)
    (outcome : TaskOutcome) (artifact : Bool) (f : Bool)
    (hidle : s0.lockHeld = false) (hslug : slug ≠ "")
    (hscript : s0.scriptExists = true) :
    (scraper_start s0 slug now1 e1).2 = true ∧
    (scraper_start (scraper_start s0 slug now1 e1).1 slug now2 e2).2 = false ∧
    (scraper_start (scraper_start s0 slug now1 e1).1 slug now2 e2).1 =
      { (scraper_start s0 slug now1 e1).1 with
        charsDirExists := true, gamename := none } ∧
    (scraper_finish
      (scraper_body (scraper_start (scraper_start s0 slug now1 e1).1 slug now2 e2).1
        slug outcome artifact) slug f).runs = s0.runs ++ [slug] := by
  obtain ⟨hacc, hlock, hscr, hruns, _⟩ :=
    scraper_start_acquires s0 slug now1 e1 hidle hslug hscript
  have hc := scraper_start_contended (scraper_start s0 slug now1 e1).1 slug now2 e2
    hlock hslug hscr
  refine ⟨hacc, ?_, ?_, ?_⟩
  · rw [hc]
  · rw [hc]
  · rw [hc]
    rw [(scraper_finish_fields _ slug f).2.2.1, scraper_body_runs]
    simp [hruns]

/-- Witness for C3's amended theorem on a concrete idle state and key
`k1`. -/
theorem single_flight_second_accept_dropped_witness :
    (exIdleScraper.lockHeld = false ∧ ("k1" : String) ≠ "" ∧
      exIdleScraper.scriptExists = true) ∧
    ((scraper_start exIdleScraper "k1" 0 true).2 = true ∧
     (scraper_start (scraper_start exIdleScraper "k1" 0 true).1 "k1" 1 true).2 = false ∧
     (scraper_start (scraper_start exIdleScraper "k1" 0 true).1 "k1" 1 true).1 =
       { (scraper_start exIdleScraper "k1" 0 true).1 with
         charsDirExists := true, gamename := none } ∧
     (scraper_finish
       (scraper_body (scraper_start (scraper_start exIdleScraper "k1" 0 true).1 "k1" 1 true).1
         "k1" (.exit 0) true) "k1" true).runs = exIdleScraper.runs ++ ["k1"]) :=
  ⟨⟨rfl, by decide, rfl⟩,
    single_flight_second_accept_dropped exIdleScraper "k1" 0 1 true true
      (.exit 0) true true rfl (by decide) rfl⟩

/-- C4: for every accepted run — whatever the task outcome (success,
non-zero exit, or crash) — the `finally` block clears `running` and
releases the guard, and when the job-finished notification publish
succeeds it is the last status event; the release and state transition
hold even when that publish fails. -/
theorem scraper_guard_released_on_all_paths
    (s : ScraperState) (slug : String) (now : Nat) (e1 : Bool)
    (outcome : TaskOutcome) (artifact : Bool) (e2 : Bool)
    (hacc : (scraper_start s slug now e1).2 = true) :
    (_run_char_scraper_for_slug s slug now e1 outcome artifact e2).lockHeld = false ∧
    (_run_char_scraper_for_slug s slug now e1 outcome artifact e2).running = false ∧
    (e2 = true →
      (_run_char_scraper_for_slug s slug now e1 outcome artifact e2).statusEvents.getLast? =
        some (false, slug)) := by
  have hrun : _run_char_scraper_for_slug s slug now e1 outcome artifact e2 =
      scraper_finish (scraper_body (scraper_start s slug now e1).1 slug outcome artifact)
        slug e2 := by
    unfold _run_char_scraper_for_slug
    cases hp : scraper_start s slug now e1 with
    | mk s1 b =>
      rw [hp] at hacc
      simp at hacc
      subst hacc
      rfl
  rw [hrun]
  obtain ⟨h1, h2, _, h4⟩ := scraper_finish_fields
    (scraper_body (scraper_start s slug now e1).1 slug outcome artifact) slug e2
  refine ⟨h1, h2, ?_⟩
  intro he
  rw [h4 he]
  simp

/-- Witness for C4 on a concrete accepted run whose task exits with
code 1. -/
theorem scraper_guard_released_on_all_paths_witness :
    (scraper_start exIdleScraper "k1" 0 true).2 = true ∧
    ((_run_char_scraper_for_slug exIdleScraper "k1" 0 true (.exit 1) false true).lockHeld = false ∧
     (_run_char_scraper_for_slug exIdleScraper "k1" 0 true (.exit 1) false true).running = false ∧
     (true = true →
       (_run_char_scraper_for_slug exIdleScraper "k1" 0 true (.exit 1) false true).statusEvents.getLast? =
         some (false, "k1"))) :=
  ⟨by decide,
    scraper_guard_released_on_all_paths exIdleScraper "k1" 0 true (.exit 1) false true
      (by decide)⟩

/-- C8 counterexample: an overlay connecting while `data.json` is
missing receives no push at all, not a push of the empty document that
`load_data()` would return. -/
theorem overlay_connect_missing_skips_push_cex :
    on_connect .missing .overlay = [] ∧
    on_connect .missing .overlay ≠ [load_data .missing] := by
  refine ⟨rfl, ?_⟩
  intro h
  simp [on_connect] at h

/-- C8 amended: on connect, an overlay receives exactly one push of the
parsed `data.json` contents when the file is present and readable — the
handler opens the file directly rather than calling `load_data()` — and
a missing or unreadable file makes it skip the push (with a warning);
subscribers with any other inferred role receive no initial push. -/
theorem overlay_initial_push (fs : DataFileState) (role : Role) :
    (role ≠ .overlay → on_connect fs role = []) ∧
    (∀ d, fs = .readable d → on_connect fs .overlay = [d]) ∧
    on_connect .missing .overlay = [] ∧
    on_connect .unreadable .overlay = [] := by
  refine ⟨?_, ?_, rfl, rfl⟩
  · intro h
    cases role <;> cases fs <;> simp_all [on_connect]
  · intro d h
    subst h
    rfl

/-- Witness for C8's amended theorem: a controller gets no push, an
overlay gets exactly the readable document. -/
theorem overlay_initial_push_witness :
    on_connect .missing .controller = [] ∧
    on_connect (.readable exCurPort) .overlay = [exCurPort] :=
  ⟨(overlay_initial_push .missing .controller).1 (by simp),
   (overlay_initial_push (.readable exCurPort) .overlay).2.1 exCurPort rfl⟩

theorem strip_data_append_ws (a t : List Char)
    (ht : ∀ c ∈ t, Char.isWhitespace c = true) :
    (((a ++ t).dropWhile Char.isWhitespace).reverse.dropWhile
      Char.isWhitespace).reverse =
    ((a.dropWhile Char.isWhitespace).reverse.dropWhile Char.isWhitespace).reverse := by
  rw [List.dropWhile_append]
  by_cases he : (a.dropWhile Char.isWhitespace).isEmpty
  · rw [if_pos he]
    have h1 : t.dropWhile Char.isWhitespace = [] :=
      List.dropWhile_eq_nil_iff.mpr ht
    have h2 : a.dropWhile Char.isWhitespace = [] := List.isEmpty_iff.mp he
    rw [h1, h2]
  · rw [if_neg he, List.reverse_append]
    have h3 : (t.reverse.dropWhile Char.isWhitespace).isEmpty = true := by
      rw [List.isEmpty_iff]
      exact List.dropWhile_eq_nil_iff.mpr
        (fun c hc => ht c (List.mem_reverse.mp hc))
    rw [List.dropWhile_append, if_pos h3]

theorem strip_backdrop (p : Char → Bool)
    (hp : ∀ c, p c = true → Char.isWhitespace c = true) (r : List Char) :
    (((((r.reverse.dropWhile p).reverse).dropWhile
        Char.isWhitespace).reverse).dropWhile Char.isWhitespace).reverse =
    ((r.dropWhile Char.isWhitespace).reverse.dropWhile Char.isWhitespace).reverse := by
  have hsplit : (r.reverse.dropWhile p).reverse ++ (r.reverse.takeWhile p).reverse = r := by
    rw [← List.reverse_append, List.takeWhile_append_dropWhile, List.reverse_reverse]
  have ht : ∀ c ∈ (r.reverse.takeWhile p).reverse, Char.isWhitespace c = true :=
    fun c hc => hp c (List.mem_takeWhile_imp (List.mem_reverse.mp hc))
  conv_rhs => rw [← hsplit]
  rw [strip_data_append_ws _ _ ht]

theorem frozenLinePrep_eq (raw : String) : frozenLinePrep raw = pyStrip raw := by
  show String.mk ((((((raw.data.reverse.dropWhile Char.isWhitespace).reverse).dropWhile
      Char.isWhitespace).reverse).dropWhile Char.isWhitespace).reverse) = _
  unfold pyStrip
  exact congrArg String.mk
    (strip_backdrop Char.isWhitespace (fun _ h => h) raw.data)

theorem subprocLinePrep_eq (raw : String) : subprocLinePrep raw = pyStrip raw := by
  show String.mk ((((((raw.data.reverse.dropWhile (fun c => c == '\n')).reverse).dropWhile
      Char.isWhitespace).reverse).dropWhile Char.isWhitespace).reverse) = _
  unfold pyStrip
  refine congrArg String.mk (strip_backdrop (fun c => c == '\n') ?_ raw.data)
  intro c h
  have hc := eq_of_beq h
  subst hc
  decide

theorem classify_agree (line : String) :
    (classifyWith frozenTags line).1 = (classifyWith subprocTags line).1 ∧
    (listStartsWith (pyLStrip (pyLower line)).data "[ok]".data = false →
      classifyWith frozenTags line = classifyWith subprocTags line) := by
  unfold classifyWith frozenTags subprocTags
  simp only [classifyGo]
  split_ifs <;> simp_all

/-- C9 counterexample: for the output line `[ok] done` the frozen path
logs message `done` while the subprocess path (whose tag table lacks
`[ok]`) logs `[ok] done` — the logged message texts differ, so the two
paths are not behaviorally equivalent as claimed. -/
theorem ok_tag_divergence_cex :
    frozenProcessLine "[ok] done" = some (.info, "done") ∧
    subprocProcessLine "[ok] done" = some (.info, "[ok] done") ∧
    frozenProcessLine "[ok] done" ≠ subprocProcessLine "[ok] done" := by
  decide

/-- C9 amended: the two paths always assign the same severity to a line
(`[ok]` maps to informational, which is also the default), and log the
same message text for every line except those whose stripped, lowered
form starts with `[ok]`: there the frozen path strips the tag while the
subprocess path logs the line unchanged. -/
theorem classifier_paths_agree_except_ok_tag (raw : String) :
    ((frozenProcessLine raw).map Prod.fst = (subprocProcessLine raw).map Prod.fst) ∧
    (listStartsWith (pyLStrip (pyLower (pyStrip raw))).data "[ok]".data = false →
      frozenProcessLine raw = subprocProcessLine raw) := by
  unfold frozenProcessLine subprocProcessLine
  rw [frozenLinePrep_eq, subprocLinePrep_eq]
  by_cases h : pyStrip raw = ""
  · simp [h]
  · rw [if_neg h, if_neg h]
    constructor
    · simpa using (classify_agree (pyStrip raw)).1
    · intro hok
      rw [(classify_agree (pyStrip raw)).2 hok]

/-- Witness for C9's amended theorem at a line with no `[ok]` tag. -/
theorem classifier_paths_agree_except_ok_tag_witness :
    (listStartsWith (pyLStrip (pyLower (pyStrip "[warn] low disk"))).data
      "[ok]".data = false) ∧
    frozenProcessLine "[warn] low disk" = subprocProcessLine "[warn] low disk" :=
  ⟨by decide, (classifier_paths_agree_except_ok_tag "[warn] low disk").2 (by decide)⟩

theorem str_data_append (a b : String) : (a ++ b).data = a.data ++ b.data := by
  cases a; cases b; rfl

theorem str_ne_empty_iff (a : String) : a ≠ "" ↔ a.data ≠ [] := by
  constructor
  · intro h hd
    apply h
    cases a
    simp_all
  · intro h he
    subst he
    simp at h

theorem append_ne_empty_left (a b : String) (h : a ≠ "") : a ++ b ≠ "" := by
  rw [str_ne_empty_iff] at h ⊢
  rw [str_data_append]
  intro hab
  exact h (List.append_eq_nil.mp hab).1

theorem append_ne_empty_right (a b : String) (h : b ≠ "") : a ++ b ≠ "" := by
  rw [str_ne_empty_iff] at h ⊢
  rw [str_data_append]
  intro hab
  exact h (List.append_eq_nil.mp hab).2

theorem fmt_change_eq_empty_iff (l : String) (o n : JVal) :
    _fmt_change l o n = "" ↔ o = n := by
  unfold _fmt_change
  by_cases h : o = n
  · rw [if_pos h]
    simp [h]
  · rw [if_neg h]
    constructor
    · intro he
      have hne : l ++ " [b]" ++ _short o ++ "[/b] → [bold]" ++ _short n ++ "[/bold]" ≠ "" :=
        append_ne_empty_left _ _ (append_ne_empty_left _ _ (append_ne_empty_left _ _
          (append_ne_empty_left _ _ (append_ne_empty_right _ _ (by decide)))))
      exact absurd he hne
    · intro he
      exact absurd he h

theorem diff_section_ne_iff (t : String) (pv cv : JVal)
    (fields : List (String × String)) :
    (_diff_section t pv cv fields ≠ "") ↔
      ∃ kl ∈ fields,
        dictGet (asEntries pv) kl.1 ≠ dictGet (asEntries cv) kl.1 := by
  unfold _diff_section
  cases hparts : (fields.map
      (fun kl => _fmt_change (kl.2 ++ ":") (dictGet (asEntries pv) kl.1)
        (dictGet (asEntries cv) kl.1))).filter (fun x => x ≠ "") with
  | nil =>
    constructor
    · intro hne
      exact absurd rfl hne
    · rintro ⟨kl, hmem, hdiff⟩
      have ha := List.filter_eq_nil_iff.mp hparts _
        (List.mem_map_of_mem _ hmem)
      simp only [ne_eq, decide_not, Bool.not_eq_eq_eq_not, Bool.not_true,
        decide_eq_false_iff_not, not_not] at ha
      exact (hdiff ((fmt_change_eq_empty_iff _ _ _).mp ha)).elim
  | cons x xs =>
    constructor
    · intro _
      have hx : x ∈ (fields.map
          (fun kl => _fmt_change (kl.2 ++ ":") (dictGet (asEntries pv) kl.1)
            (dictGet (asEntries cv) kl.1))).filter (fun x => x ≠ "") := by
        rw [hparts]
        exact List.mem_cons_self x xs
      have hx2 := List.mem_filter.mp hx
      obtain ⟨kl, hmem, hfeq⟩ := List.mem_map.mp hx2.1
      refine ⟨kl, hmem, ?_⟩
      have hne : x ≠ "" := by simpa using hx2.2
      intro heq
      apply hne
      rw [← hfeq]
      exact (fmt_change_eq_empty_iff _ _ _).mpr heq
    · intro _
      apply append_ne_empty_left
      apply append_ne_empty_right
      decide

theorem boolEqOfIff {a b : Bool} (h : (a = true) ↔ (b = true)) : a = b := by
  cases a <;> cases b <;> simp_all

theorem section_mentioned_eq_differs (prev curr : Doc) (s : DiffSection) :
    sectionMentioned prev curr s = sectionDiffers prev curr s := by
  apply boolEqOfIff
  cases s <;>
    simp only [sectionMentioned, sectionLine, sectionDiffers, bne_iff_ne,
      _diff_scalar, List.any_eq_true, decide_eq_true_eq] <;>
    first
      | exact diff_section_ne_iff _ _ _ _
      | exact not_congr (fmt_change_eq_empty_iff _ _ _)

theorem sectionDiffers_self (d : Doc) (s : DiffSection) :
    sectionDiffers d d s = false := by
  cases s <;> simp [sectionDiffers]

theorem sectionLine_self (d : Doc) (s : DiffSection) : sectionLine d d s = "" := by
  have h := section_mentioned_eq_differs d d s
  rw [sectionDiffers_self] at h
  simpa [sectionMentioned] using h

/-- C7: the diff output mentions a logical section (its section line is
non-empty, hence included in the joined output) exactly when some
tracked field of that section differs between the two documents; and the
diff of a document against itself is the empty string. -/
theorem diff_mentions_section_iff_field_changed :
    (∀ prev curr : Doc, ∀ s : DiffSection,
      sectionMentioned prev curr s = sectionDiffers prev curr s) ∧
    (∀ d : Doc, _diff_payload d d = "") := by
  refine ⟨section_mentioned_eq_differs, ?_⟩
  intro d
  unfold _diff_payload
  have hfil : ((sectionsOrder.map (sectionLine d d)).filter (fun l => l ≠ "")) = [] := by
    apply List.filter_eq_nil_iff.mpr
    intro a ha
    obtain ⟨s, _, rfl⟩ := List.mem_map.mp ha
    simp [sectionLine_self]
  rw [hfil]
  rfl

end FGCaster
